import Mathlib

/-!
Shallow embedding of `src/app/src/main/cpp/native-lib.cpp` from the
SimpleMediaApp repository, and proofs about its single exported function
`Java_com_example_simplemediaapp_MainActivity_stringFromJNI`.

The source function is:

    extern "C" JNIEXPORT jstring JNICALL
    Java_com_example_simplemediaapp_MainActivity_stringFromJNI(
            JNIEnv* env,
            jobject /* this */) {
        std::string hello = "Hello from C++";
        return env->NewStringUTF(hello.c_str());
    }

The embedding models the JNI bridging layer only as far as the program uses
it: an opaque `jobject` handle, and a `JNIEnv` whose single relevant
operation is `NewStringUTF`, which either allocates a fresh managed string
holding the bytes of the NUL-terminated buffer it is given, or fails (out of
memory in the bridging layer) and returns the null reference.
-/

/-- An opaque managed-runtime object handle (`jobject`). The program never
reads it, so its representation is irrelevant; a natural-number handle makes
distinct handles expressible. -/
structure Jobject where
  handle : Nat
  deriving DecidableEq

/-- A `jstring` reference as handed back across the JNI bridge: either the
null reference (allocation failure inside the bridging layer) or a managed
string holding the decoded bytes. -/
inductive Jstring where
  | null : Jstring
  | str : List Nat → Jstring
  deriving DecidableEq

/-- The JNI environment (`JNIEnv*`), as far as this program uses it: the only
interaction is `NewStringUTF`, which can fail by returning null when the
bridging layer cannot allocate the outgoing string. `allocOk` records whether
that allocation succeeds. -/
structure JNIEnv where
  allocOk : Bool
  deriving DecidableEq

/-- Bytes of a `std::string` constructed from a string literal: for ASCII
text (which is all this program uses) the UTF-8 bytes coincide with the
character codes. -/
def stdStringBytes (s : String) : List Nat := s.data.map Char.toNat

/-- `std::string::c_str()`: the string's bytes followed by the terminating
NUL byte. -/
def cStr (bytes : List Nat) : List Nat := bytes ++ [0]

/-- How `NewStringUTF` reads its `const char*` argument: the bytes of the
buffer up to (and excluding) the first NUL terminator. -/
def readCString (buf : List Nat) : List Nat := buf.takeWhile (fun b => b != 0)

/-- `JNIEnv::NewStringUTF`: on allocation success, a fresh managed string
holding the bytes of the NUL-terminated buffer; on allocation failure, the
null reference (the bridging layer's own convention). -/
def JNIEnv.NewStringUTF (env : JNIEnv) (buf : List Nat) : Jstring :=
  if env.allocOk then Jstring.str (readCString buf) else Jstring.null

/-- The C++ string literal the function builds its local `std::string` from
(native-lib.cpp line 12). -/
def helloLiteral : String := "Hello from C++"

/-- Embedding of `Java_com_example_simplemediaapp_MainActivity_stringFromJNI`
(native-lib.cpp lines 8-14): construct `std::string hello = "Hello from C++";`
and return `env->NewStringUTF(hello.c_str())`. The `jobject` parameter is
unnamed in the source and never read. -/
def stringFromJNI (env : JNIEnv) (_thisObj : Jobject) : Jstring :=
  let hello : List Nat := stdStringBytes helloLiteral
  env.NewStringUTF (cStr hello)

/-- Running the entry point against an arbitrary ambient program state `σ`
(globals, statics, caller-visible memory — the source file declares no global
or static variable and the function body writes only to its own local
`hello`): the ambient state passes through unchanged and the result is the
pure value of `stringFromJNI`. -/
def stringFromJNIRun {S : Type} (σ : S) (env : JNIEnv) (o : Jobject) :
    S × Jstring :=
  (σ, stringFromJNI env o)

/-- One interaction with the JNI bridging environment: the function's only
such interaction is a `NewStringUTF` call, recorded with the buffer passed. -/
inductive BridgeCall where
  | newStringUTF : List Nat → BridgeCall
  deriving DecidableEq

/-- Instrumented embedding of the same function body, recording the list of
interactions with the `JNIEnv` in program order alongside the returned
value. The body performs exactly one bridge call and returns its result. -/
def stringFromJNITrace (env : JNIEnv) (_thisObj : Jobject) :
    List BridgeCall × Jstring :=
  let hello : List Nat := stdStringBytes helloLiteral
  ([BridgeCall.newStringUTF (cStr hello)], env.NewStringUTF (cStr hello))

/-- Number of bytes of the standard UTF-8 encoding of a code point. -/
def utf8Size (c : Nat) : Nat :=
  if c < 0x80 then 1 else if c < 0x800 then 2 else if c < 0x10000 then 3 else 4

/-- Length in bytes of a string's UTF-8 encoding. -/
def utf8Length (s : String) : Nat :=
  (s.data.map (fun c => utf8Size c.toNat)).sum

/-- Standard UTF-8 encoding of one code point. -/
def utf8Encode (c : Nat) : List Nat :=
  if c < 0x80 then [c]
  else if c < 0x800 then [0xC0 + c / 64, 0x80 + c % 64]
  else if c < 0x10000 then
    [0xE0 + c / 4096, 0x80 + (c / 64) % 64, 0x80 + c % 64]
  else
    [0xF0 + c / 262144, 0x80 + (c / 4096) % 64, 0x80 + (c / 64) % 64,
      0x80 + c % 64]

/-- JNI modified UTF-8 encoding of one code point: NUL gets the two-byte
form `0xC0 0x80`, code points above `0xFFFF` are encoded as a surrogate
pair, everything else as in standard UTF-8. -/
def modUTF8Encode (c : Nat) : List Nat :=
  if c = 0 then [0xC0, 0x80]
  else if c < 0x10000 then utf8Encode c
  else
    let cp := c - 0x10000
    utf8Encode (0xD800 + cp / 1024) ++ utf8Encode (0xDC00 + cp % 1024)

/-- UTF-8 byte sequence of a string. -/
def utf8Bytes (s : String) : List Nat :=
  (s.data.map (fun c => utf8Encode c.toNat)).flatten

/-- JNI modified UTF-8 byte sequence of a string. -/
def modUTF8Bytes (s : String) : List Nat :=
  (s.data.map (fun c => modUTF8Encode c.toNat)).flatten

/-- C1: for every invocation of the entry point (any `JNIEnv` whose string
allocation succeeds — the only mode of operation in which a text value is
returned at all — and any calling-context handle), the returned text value
is the managed string holding exactly the bytes of the literal
"Hello from C++". -/
theorem stringFromJNI_returns_hello (env : JNIEnv) (o : Jobject)
    (h : env.allocOk = true) :
    stringFromJNI env o = Jstring.str (stdStringBytes helloLiteral) := by
  unfold stringFromJNI JNIEnv.NewStringUTF
  rw [h]
  simp only [if_true]
  decide

/-- Witness for C1 at a concrete environment and handle. -/
theorem stringFromJNI_returns_hello_witness :
    (JNIEnv.mk true).allocOk = true ∧
      stringFromJNI (JNIEnv.mk true) (Jobject.mk 0) =
        Jstring.str (stdStringBytes helloLiteral) :=
  ⟨rfl, stringFromJNI_returns_hello (JNIEnv.mk true) (Jobject.mk 0) rfl⟩

/-- C2: for every invocation (allocation succeeding), the returned text
value holds exactly 14 bytes; the literal has 14 characters and its UTF-8
encoding is 14 bytes. -/
theorem stringFromJNI_length_14 (env : JNIEnv) (o : Jobject)
    (h : env.allocOk = true) :
    ∃ bs : List Nat, stringFromJNI env o = Jstring.str bs ∧
      bs.length = 14 ∧ helloLiteral.length = 14 ∧
      utf8Length helloLiteral = 14 := by
  refine ⟨stdStringBytes helloLiteral, ?_, by decide, by decide, by decide⟩
  unfold stringFromJNI JNIEnv.NewStringUTF
  rw [h]
  simp only [if_true]
  decide

/-- Witness for C2 at a concrete environment and handle. -/
theorem stringFromJNI_length_14_witness :
    (JNIEnv.mk true).allocOk = true ∧
      ∃ bs : List Nat,
        stringFromJNI (JNIEnv.mk true) (Jobject.mk 7) = Jstring.str bs ∧
          bs.length = 14 ∧ helloLiteral.length = 14 ∧
          utf8Length helloLiteral = 14 :=
  ⟨rfl, stringFromJNI_length_14 (JNIEnv.mk true) (Jobject.mk 7) rfl⟩

/-- C3: the operation is deterministic and idempotent: any two invocations
under normal operation (string allocation succeeding, as the spec's error
section assumes), in sequence and with the same or different calling
contexts, return equal values. -/
theorem stringFromJNI_deterministic (e1 e2 : JNIEnv) (o1 o2 : Jobject)
    (h1 : e1.allocOk = true) (h2 : e2.allocOk = true) :
    stringFromJNI e1 o1 = stringFromJNI e2 o2 := by
  unfold stringFromJNI JNIEnv.NewStringUTF
  rw [h1, h2]

/-- Witness for C3 at two concrete environments and distinct handles. -/
theorem stringFromJNI_deterministic_witness :
    (JNIEnv.mk true).allocOk = true ∧ (JNIEnv.mk true).allocOk = true ∧
      stringFromJNI (JNIEnv.mk true) (Jobject.mk 1) =
        stringFromJNI (JNIEnv.mk true) (Jobject.mk 2) :=
  ⟨rfl, rfl,
    stringFromJNI_deterministic (JNIEnv.mk true) (JNIEnv.mk true)
      (Jobject.mk 1) (Jobject.mk 2) rfl rfl⟩

/-- C4: the output does not depend on the calling-context handle: for every
environment and every pair of `jobject` handles, the results are equal — the
handle is never read by the function body. -/
theorem stringFromJNI_ignores_handle (env : JNIEnv) (h1 h2 : Jobject) :
    stringFromJNI env h1 = stringFromJNI env h2 := rfl

/-- C5: the operation has no observable side effects: running it against any
ambient program state leaves that state unchanged, and the returned value is
exactly the pure result. -/
theorem stringFromJNI_no_side_effects {S : Type} (σ : S) (env : JNIEnv)
    (o : Jobject) :
    (stringFromJNIRun σ env o).1 = σ ∧
      (stringFromJNIRun σ env o).2 = stringFromJNI env o :=
  ⟨rfl, rfl⟩

/-- C6: the operation fails exactly when the bridging layer's string
allocation fails, the failure is surfaced as the null reference per that
layer's convention, and the component passes the bridging layer's result
through without any error handling or translation. -/
theorem stringFromJNI_failure_iff (env : JNIEnv) (o : Jobject) :
    (stringFromJNI env o = Jstring.null ↔ env.allocOk = false) ∧
      stringFromJNI env o =
        env.NewStringUTF (cStr (stdStringBytes helloLiteral)) := by
  refine ⟨?_, rfl⟩
  unfold stringFromJNI JNIEnv.NewStringUTF
  cases h : env.allocOk <;> simp

/-- C7: the operation is a single straight-line construction and return: its
body is definitionally the one bridge call on the constant buffer (no loop,
no recursion, no branch in the component itself), and — being a total
function — it terminates with a result on every invocation. -/
theorem stringFromJNI_straight_line (env : JNIEnv) (o : Jobject) :
    stringFromJNI env o =
        env.NewStringUTF (cStr (stdStringBytes helloLiteral)) ∧
      ∃ r : Jstring, stringFromJNI env o = r :=
  ⟨rfl, stringFromJNI env o, rfl⟩

/-- C8: the operation is safe under concurrent invocation: 100 invocations,
each with its own environment (allocation succeeding) and its own handle,
touch no shared mutable state (each leaves any ambient state unchanged) and
all 100 return the same correct literal result. -/
theorem stringFromJNI_concurrent_100 (envs : Fin 100 → JNIEnv)
    (objs : Fin 100 → Jobject) (h : ∀ i, (envs i).allocOk = true) :
    (∀ i : Fin 100,
        stringFromJNI (envs i) (objs i) =
          Jstring.str (stdStringBytes helloLiteral)) ∧
      ∀ {S : Type} (σ : S) (i : Fin 100),
        (stringFromJNIRun σ (envs i) (objs i)).1 = σ := by
  constructor
  · intro i
    unfold stringFromJNI JNIEnv.NewStringUTF
    rw [h i]
    simp only [if_true]
    decide
  · intro S σ i
    rfl

/-- Witness for C8 at a concrete family of 100 environments and handles. -/
theorem stringFromJNI_concurrent_100_witness :
    (∀ i : Fin 100, ((fun _ : Fin 100 => JNIEnv.mk true) i).allocOk = true) ∧
      (∀ i : Fin 100,
          stringFromJNI ((fun _ : Fin 100 => JNIEnv.mk true) i)
              ((fun j : Fin 100 => Jobject.mk j.val) i) =
            Jstring.str (stdStringBytes helloLiteral)) ∧
        ∀ {S : Type} (σ : S) (i : Fin 100),
          (stringFromJNIRun σ ((fun _ : Fin 100 => JNIEnv.mk true) i)
              ((fun j : Fin 100 => Jobject.mk j.val) i)).1 = σ :=
  ⟨fun _ => rfl,
    (stringFromJNI_concurrent_100 (fun _ => JNIEnv.mk true)
        (fun j => Jobject.mk j.val) (fun _ => rfl)).1,
    (stringFromJNI_concurrent_100 (fun _ => JNIEnv.mk true)
        (fun j => Jobject.mk j.val) (fun _ => rfl)).2⟩

/-- C9: every byte of the produced string is non-zero ASCII, so the
NUL-terminated buffer passed to `NewStringUTF` has no embedded NUL and is
read back intact, and the string's UTF-8 and JNI modified UTF-8 encodings
coincide (both equal to the bytes themselves). -/
theorem hello_ascii_no_embedded_nul :
    (stdStringBytes helloLiteral).all
        (fun b => decide (0 < b) && decide (b < 128)) = true ∧
      readCString (cStr (stdStringBytes helloLiteral)) =
          stdStringBytes helloLiteral ∧
        utf8Bytes helloLiteral = stdStringBytes helloLiteral ∧
          modUTF8Bytes helloLiteral = stdStringBytes helloLiteral := by
  refine ⟨by decide, by decide, by decide, by decide⟩

/-- C10: every invocation interacts with the bridging environment exactly
once — a single `NewStringUTF` call on the constant buffer — and the value
returned is exactly that call's result, unmodified. -/
theorem stringFromJNI_single_bridge_call (env : JNIEnv) (o : Jobject) :
    (stringFromJNITrace env o).1 =
        [BridgeCall.newStringUTF (cStr (stdStringBytes helloLiteral))] ∧
      (stringFromJNITrace env o).2 =
          env.NewStringUTF (cStr (stdStringBytes helloLiteral)) ∧
        (stringFromJNITrace env o).2 = stringFromJNI env o :=
  ⟨rfl, rfl, rfl⟩
